import Mathlib

/-!
Shallow embedding of the `Database` façade of lucid-mongo
(`src/Database/index.js`) and proofs about its documented behaviour.

The JavaScript is embedded as pure Lean functions:
- stateful mutation becomes explicit state passing over small record types;
- calls issued to external collaborators (the mongodb driver, the mquery
  builder, a collection object) become elements of explicit event lists,
  so that a theorem can talk about *which* calls the façade issues;
- JavaScript `undefined`/`null` become `Option`/dedicated constructors,
  and truthiness tests are spelled out per type exactly as the source
  applies them (`!name` on a string is `name = ""`, `!keys` on a possibly
  missing object is `none`, `groupBy ?` on an optional string is
  "some non-empty string", an object is always truthy);
- a thrown exception becomes `Except.error`, carrying the constructor
  name and message used at the throw site.
-/

namespace LucidMongo

/-- A transaction token as seen through the JS layer: `undefinedTok` models the
JavaScript value `undefined`, `tok n` an actual driver-issued token. -/
inductive Trx where
  | undefinedTok
  | tok (n : Nat)
deriving DecidableEq, Repr

/-- A thrown JavaScript error: `errorType` is the constructor used at the
throw site (`Error`, `InvalidArgumentException`, `TypeError`), `message`
its message string. -/
structure JsError where
  errorType : String
  message : String
deriving DecidableEq, Repr

/-- The mutable own-state of a `Database` instance that the claims depend
on: the ambient global transaction (`this._globalTrx`, `null` initially)
and the optional target collection name (`this.collectionName`, set only
by `setCollection`). -/
structure DbState where
  globalTrx : Option Trx
  collectionName : Option String
deriving DecidableEq, Repr

/-- Member names for which `typeof target[name] !== 'undefined'` holds on
every `Database` instance: the data fields assigned in the constructor
(`connection` is `null`, hence defined) and the methods and getters of
the class, plus `constructor` from the prototype chain. -/
def facadeMemberNames : List String :=
  ["connectionString", "connection", "_globalTrx", "mquery",
   "connect", "collection", "setCollection", "schema", "raw",
   "beginTransaction", "beginGlobalTransaction", "rollbackGlobalTransaction",
   "commitGlobalTransaction", "query", "conditions", "clone", "close",
   "find", "findOne", "first", "update", "delete", "paginate", "insert",
   "aggregate", "constructor"]

/-- Whether `typeof target[name] !== 'undefined'` holds on a `Database`
instance in state `db`: always for the fixed member names, and for
`collectionName` once `setCollection` has been called. -/
def facadeHas (db : DbState) (name : String) : Bool :=
  facadeMemberNames.contains name ||
    (name == "collectionName" && db.collectionName.isSome)

/-- The state of a freshly built mquery query builder as far as the claims
observe it: the transaction attached via `queryBuilder.transacting(...)`,
if any. A fresh builder has none. -/
structure QueryBuilder where
  transacting : Option Trx
deriving DecidableEq, Repr

/-- What a successful proxy `get` evaluates to: either an existing façade
member returned as-is (`target[name]`), or a query-builder method `name`
bound to a freshly created builder. -/
inductive ProxyResult where
  | facadeMember (name : String)
  | bound (qb : QueryBuilder) (name : String)
deriving DecidableEq, Repr

/-- The proxy `get` trap of `src/Database/index.js` lines 18-43, for string
property names (symbol keys take the same early-return branch as
`inspect` and are outside this string-keyed model).  The trap:
returns `target[name]` for `inspect`; returns `target[name]` when that is
not `undefined`; otherwise creates a fresh query builder via
`target.query()`, throws `Error` with message naming the member when
`queryBuilder[name]` is not a function (`qbCallable` says which member
names are functions on a fresh mquery builder), attaches
`target._globalTrx` when it is truthy, and returns the bound member. -/
def proxyGet (db : DbState) (qbCallable : String → Bool) (name : String) :
    Except JsError ProxyResult :=
  if name = "inspect" then .ok (.facadeMember name)
  else if facadeHas db name then .ok (.facadeMember name)
  else if !(qbCallable name) then
    .error { errorType := "Error",
             message := "Database." ++ name ++ " is not a function" }
  else .ok (.bound { transacting := db.globalTrx } name)

/-- Outcome of the transaction negotiation performed by the external
query-builder collaborator (`this.mquery.transaction(cb)`): on success the
callback is invoked with the new transaction token and the returned
promise resolves; on failure the callback is never invoked and the
returned promise rejects.  The collaborator itself is not under `src/`;
this is its interface as the spec describes it (a transaction-negotiation
entry point that fails when the driver rejects). -/
inductive NegotiationOutcome where
  | success (t : Trx)
  | failure (msg : String)
deriving DecidableEq, Repr

/-- Final disposition of a JavaScript promise: resolved with a value,
rejected with an error, or forever pending (neither `resolve` nor
`reject` was ever called on its executor). -/
inductive PromiseOutcome (α : Type) where
  | resolved (a : α)
  | rejected (e : JsError)
  | pending
deriving DecidableEq, Repr, BEq

/-- `Database.beginTransaction` (source lines 240-248): wraps the
collaborator's negotiation in `new Promise((resolve, reject) => ...)`,
calling `resolve(trx)` from the success callback and attaching
`.catch(() => { })` to the negotiation.  On a failed negotiation the
rejection is consumed by that empty catch handler, the success callback
never runs, and neither `resolve` nor `reject` is ever invoked, so the
promise returned to the caller stays pending. -/
def beginTransaction (o : NegotiationOutcome) : PromiseOutcome Trx :=
  match o with
  | .success t => .resolved t
  | .failure _ => .pending

/-- `Database.beginGlobalTransaction`: awaits `beginTransaction()` and
stores the result in `this._globalTrx`.  `none` models an await that
never completes (or rejects), in which case the assignment is never
reached and the state is unchanged, i.e. no post-state is produced. -/
def beginGlobalTransaction (o : NegotiationOutcome) (db : DbState) :
    Option DbState :=
  match beginTransaction o with
  | .resolved t => some { db with globalTrx := some t }
  | _ => none

/-- A lifecycle call issued on the ambient transaction object. -/
inductive TrxCall where
  | commit (t : Trx)
  | rollback (t : Trx)
deriving DecidableEq, Repr

/-- `Database.commitGlobalTransaction`: calls `this._globalTrx.commit()`
and then clears `this._globalTrx` to `null`.  When no ambient transaction
is set, the member access on `null` throws a `TypeError`. -/
def commitGlobalTransaction (db : DbState) :
    Except JsError (TrxCall × DbState) :=
  match db.globalTrx with
  | none => .error { errorType := "TypeError",
                     message := "_globalTrx is null" }
  | some t => .ok (.commit t, { db with globalTrx := none })

/-- `Database.rollbackGlobalTransaction`: calls
`this._globalTrx.rollback()` and then clears `this._globalTrx` to
`null`; a `TypeError` when no ambient transaction is set. -/
def rollbackGlobalTransaction (db : DbState) :
    Except JsError (TrxCall × DbState) :=
  match db.globalTrx with
  | none => .error { errorType := "TypeError",
                     message := "_globalTrx is null" }
  | some t => .ok (.rollback t, { db with globalTrx := none })

/-- A JavaScript object as an association list of string-valued
properties. -/
abbrev JsObj : Type := List (String × String)

/-- Property read `obj[key]`: `none` models `undefined`. -/
def jsGetProp (obj : JsObj) (key : String) : Option String :=
  (obj.find? (fun p => p.1 == key)).map Prod.snd

/-- Property write `obj[key] = val`: overwrites the property when the key
is present (object keys are unique in JS), otherwise appends it. -/
def jsSetProp (obj : JsObj) (key val : String) : JsObj :=
  match obj with
  | [] => [(key, val)]
  | p :: rest =>
    if p.1 == key then (key, val) :: rest else p :: jsSetProp rest key val

/-- A registered create-index directive: the `{ keys, options }` record
pushed by `SchemaBuilder.index`.  Index keys are field-name/direction
pairs; options are a string-property object. -/
structure CreateDirective where
  keys : List (String × Int)
  options : JsObj
deriving DecidableEq, Repr

/-- The accumulating state of a `SchemaBuilder`: ordered create-index
directives and ordered drop-index registrations.  A drop registration is
the plain name string pushed by `dropIndex(name)`.  The no-op
column-definition helpers (`string`, `integer`, ...) record nothing and
are not modelled. -/
structure SchemaBuilder where
  createIndexes : List CreateDirective
  dropIndexes : List String
deriving DecidableEq, Repr

/-- `SchemaBuilder.index(name, keys, options)` (source lines 63-73):
throws `InvalidArgumentException` when `name` is falsy (the empty string)
or when `keys` is falsy (`undefined`/`null`, modelled `none`) or has
`_.size(keys) = 0`; otherwise defaults `options` to `{}`, forces
`options.name = name`, and pushes one `{ keys, options }` directive.  An
error leaves the builder unchanged (the throw aborts before the push). -/
def SchemaBuilder.index (sb : SchemaBuilder) (name : String)
    (keys : Option (List (String × Int))) (options : Option JsObj) :
    Except JsError SchemaBuilder :=
  if name = "" then
    .error { errorType := "InvalidArgumentException",
             message := "param name is required to create index" }
  else
    match keys with
    | none =>
      .error { errorType := "InvalidArgumentException",
               message := "param keys is required to create index" }
    | some ks =>
      if ks.length = 0 then
        .error { errorType := "InvalidArgumentException",
                 message := "param keys is required to create index" }
      else
        .ok { sb with
              createIndexes := sb.createIndexes ++
                [{ keys := ks, options := jsSetProp (options.getD []) "name" name }] }

/-- `SchemaBuilder.dropIndex(name)`: pushes the name onto `dropIndexes`. -/
def SchemaBuilder.dropIndex (sb : SchemaBuilder) (name : String) : SchemaBuilder :=
  { sb with dropIndexes := sb.dropIndexes ++ [name] }

/-- A call issued against the underlying collection object by
`SchemaBuilder.build`.  Arguments of the drop call are optional because
the source passes whatever `dropIndex.keys` / `dropIndex.options`
evaluate to, and `none` models `undefined`. -/
inductive CollectionCall where
  | createIndex (keys : List (String × Int)) (options : JsObj)
  | dropIndex (keys : Option (List (String × Int))) (options : Option JsObj)
deriving DecidableEq, Repr

/-- `SchemaBuilder.build` (source lines 79-88) as the ordered list of
collection calls it issues: one `createIndex(keys, options)` per
registered create directive, in registration order, then one drop call
per registered drop entry, in registration order.  Each drop entry is a
plain string, so the property reads `dropIndex.keys` and
`dropIndex.options` on it both evaluate to `undefined`, and the call
issued is `dropIndex(undefined, undefined)` regardless of the registered
name. -/
def SchemaBuilder.build (sb : SchemaBuilder) : List CollectionCall :=
  sb.createIndexes.map (fun d => .createIndex d.keys d.options)
    ++ sb.dropIndexes.map (fun _ => .dropIndex none none)

/-- An element of the array returned by `listCollections().toArray()`: a
collection-info object whose `name` property is the collection name. -/
structure CollInfo where
  name : String
deriving DecidableEq, Repr

/-- A JavaScript value as far as `Array.prototype.includes` compares
collection infos against a name string: either a string or a
collection-info object. -/
inductive JsVal where
  | str (s : String)
  | obj (c : CollInfo)
deriving DecidableEq, Repr

/-- The SameValueZero comparison used by `Array.prototype.includes`:
strings compare by contents; a value never equals a value of the other
kind (an object is never SameValueZero-equal to a string).  Two distinct
info objects are never reference-equal in JS; structural equality here is
an over-approximation that the theorems never rely on, since the needle
is always a string. -/
def sameValueZero (a b : JsVal) : Bool :=
  match a, b with
  | .str x, .str y => x == y
  | .obj x, .obj y => x == y
  | _, _ => false

/-- `arr.includes(x)` via SameValueZero. -/
def jsIncludes (arr : List JsVal) (x : JsVal) : Bool :=
  arr.any (fun v => sameValueZero v x)

/-- A structural call issued against the connected database by the schema
accessor operations. -/
inductive SchemaCall where
  | createCollection (name : String)
  | dropCollection (name : String)
deriving DecidableEq, Repr

/-- `schema.createCollectionIfNotExists` (source lines 171-180) as the
calls it issues, given the collection infos that
`listCollections().toArray()` returns: it tests
`collections.includes(collectionName)` — comparing the info *objects*
against the name *string* — and creates the collection (then runs the
callback and `build()`) only when that test is false. -/
def createCollectionIfNotExists (existing : List CollInfo)
    (collectionName : String) : List SchemaCall :=
  if jsIncludes (existing.map JsVal.obj) (JsVal.str collectionName) then []
  else [.createCollection collectionName]

/-- `schema.dropCollectionIfExists` (source lines 185-191) as the calls
it issues: drops the collection only when
`collections.includes(collectionName)` is true. -/
def dropCollectionIfExists (existing : List CollInfo)
    (collectionName : String) : List SchemaCall :=
  if jsIncludes (existing.map JsVal.obj) (JsVal.str collectionName) then
    [.dropCollection collectionName]
  else []

/-- The possible results of `_.find(collections, ...)` as JS values:
`undefinedFound` when no element matches (lodash returns `undefined`), otherwise
the matching info object.  `nullv` is JS `null`, present only as the
right-hand side of the strict comparison in `hasCollection`. -/
inductive FindResult where
  | undefinedFound
  | nullv
  | obj (c : CollInfo)
deriving DecidableEq, Repr

/-- `_.find(collections, collection => collection.name === collectionName)`. -/
def lodashFind (arr : List CollInfo) (collectionName : String) : FindResult :=
  match arr.find? (fun c => c.name == collectionName) with
  | some c => .obj c
  | none => .undefinedFound

/-- JavaScript strict inequality `v !== null`: true unless `v` is exactly
`null` (in particular `undefined !== null` is true). -/
def strictNeNull (v : FindResult) : Bool :=
  !(v == .nullv)

/-- `schema.hasCollection` (source lines 196-200): returns
`_.find(collections, c => c.name === collectionName) !== null`. -/
def hasCollection (arr : List CollInfo) (collectionName : String) : Bool :=
  strictNeNull (lodashFind arr collectionName)

/-- One group of the array produced by the driver for the
match-then-group pipeline: an object with integer-valued fields (`_id`
plus the reducer field named after the aggregator). -/
abbrev GroupRow : Type := List (String × Int)

/-- Property read `row[key]` on a group row: `none` models `undefined`. -/
def jsGetInt (row : GroupRow) (key : String) : Option Int :=
  (row.find? (fun p => p.1 == key)).map Prod.snd

/-- JavaScript truthiness of the optional string parameter `groupBy`:
`undefined` (absent) and the empty string are falsy, every other string
is truthy.  This is the test `groupBy ?` performs at source line 463. -/
def strTruthy (s : Option String) : Bool :=
  match s with
  | none => false
  | some v => !(v == "")

/-- The value `aggregate` resolves with: the full grouped array, the
single reducer field of the first group (possibly `undefined` when the
group lacks that field), or JS `null`. -/
inductive AggOut where
  | grouped (rows : List GroupRow)
  | scalar (v : Option Int)
  | nullv
deriving DecidableEq, Repr, BEq

/-- The resolution expression of `Database.aggregate` (source line 463):
`groupBy ? result : !_.isEmpty(result) ? result[0][aggregator] : null`. -/
def resolveAggregate (groupBy : Option String) (aggregator : String)
    (result : List GroupRow) : AggOut :=
  if strTruthy groupBy then .grouped result
  else
    match result with
    | [] => .nullv
    | g :: _ => .scalar (jsGetInt g aggregator)

/-- The promise produced by `Database.aggregate` (source lines 458-466),
given the callback answer `(err, result)` from the driver's
`collection.aggregate`: rejected with `err` when the driver reports one,
otherwise resolved with the shape computed by `resolveAggregate`. -/
def aggregateOutcome (err : Option JsError) (groupBy : Option String)
    (aggregator : String) (result : List GroupRow) : Except JsError AggOut :=
  match err with
  | some e => .error e
  | none => .ok (resolveAggregate groupBy aggregator result)

/-- Modelled from the spec: `util.makePaginateMeta` lives in `lib/util`,
which is not under `src/`; per the spec the pagination metadata is
"derived from count/page/limit", modelled here as a record holding
exactly those three inputs. -/
structure PaginateMeta where
  total : AggOut
  page : Nat
  perPage : Nat
deriving DecidableEq, Repr, BEq

/-- Modelled from the spec: the metadata constructor applied by
`paginate` to the count answered by `aggregate` and the call's page and
limit. -/
def makePaginateMeta (countByQuery : AggOut) (page limit : Nat) :
    PaginateMeta :=
  { total := countByQuery, page := page, perPage := limit }

/-- The envelope returned by `paginate`: the metadata record with the
fetched rows assigned to `data` (source lines 408-410).  Documents are
abstracted to their identities (`Nat`). -/
structure PaginateResult where
  meta : PaginateMeta
  data : List Nat
deriving DecidableEq, Repr, BEq

/-- The row fetch `mquery.collection(c).limit(limit).skip(k).find()`:
the collaborator applies the skip then caps the result at `limit`
documents, regardless of the order the two modifiers were set in. -/
def mqueryFind (docs : List Nat) (limit skp : Nat) : List Nat :=
  (docs.drop skp).take limit

/-- `Database.paginate(page, limit)` (source lines 403-411): counts via
`this.aggregate('count')` (no key, no groupBy; `countGroups` is the
driver's answer to that pipeline), fetches rows with
`.limit(limit).skip((page || 1) * limit)` — for a numeric page, `page || 1`
is `1` when `page` is `0` (falsy) and `page` otherwise — and returns the
metadata envelope with the rows as `data`. -/
def paginate (docs : List Nat) (countGroups : List GroupRow)
    (page limit : Nat) : PaginateResult :=
  { meta := makePaginateMeta (resolveAggregate none "count" countGroups)
      page limit,
    data := mqueryFind docs limit ((if page = 0 then 1 else page) * limit) }

/-- The connection slot of a `Database` instance (`this.connection`,
`null` until first establishment).  Connections are abstracted to
identities (`Nat`). -/
structure ConnState where
  connection : Option Nat
deriving DecidableEq, Repr

/-- A lifecycle call issued to the store driver on a connection. -/
inductive ConnEvent where
  | establish (c : Nat)
  | destroy (c : Nat)
deriving DecidableEq, Repr

/-- `Database.connect` (source lines 117-122): establishes a connection
via `MongoClient.connect` only when `this.connection` is `null`, then
returns `this.connection`.  `fresh` is the connection the driver would
hand back if establishment is performed; the result triple is the
returned connection, the post-state, and the establishment calls
issued. -/
def connect (fresh : Nat) (s : ConnState) : Nat × ConnState × List ConnEvent :=
  match s.connection with
  | some c => (c, s, [])
  | none => (fresh, { connection := some fresh }, [.establish fresh])

/-- `Database.close` (source lines 329-331): calls
`this.connection.close()`.  It does not clear `this.connection`; on a
never-connected instance the member access on `null` throws a
`TypeError`. -/
def close (s : ConnState) : Except JsError (List ConnEvent) :=
  match s.connection with
  | some c => .ok [.destroy c]
  | none => .error { errorType := "TypeError", message := "connection is null" }

/-- Accumulated observations of a sequence of `connect()` calls: the
final connection slot, every driver call issued, and the connection
returned by each call in order. -/
structure ConnRun where
  state : ConnState
  events : List ConnEvent
  returned : List Nat
deriving DecidableEq, Repr

/-- `n` sequential `connect()` calls starting from a freshly constructed
instance (`this.connection = null`); `supply k` is the connection the
driver would hand back on the `k`-th establishment attempt. -/
def connectRun (supply : Nat → Nat) : Nat → ConnRun
  | 0 => { state := { connection := none }, events := [], returned := [] }
  | n + 1 =>
    let r := connectRun supply n
    let step := connect (supply n) r.state
    { state := step.2.1,
      events := r.events ++ step.2.2,
      returned := r.returned ++ [step.1] }

end LucidMongo

namespace LucidMongo

/-- C1 (amended): for every string member name other than `inspect` that
does not match an existing façade attribute or method, a fresh query
builder is created carrying the ambient transaction when one is present,
and the member is resolved on it: a callable member is returned bound to
that builder, a non-callable member makes the access fail with an `Error`
naming the member (the spec's `UnsupportedOperation`). -/
theorem proxy_passthrough_dispatch (db : DbState) (qbCallable : String → Bool)
    (name : String) (hmem : facadeHas db name = false)
    (hins : name ≠ "inspect") :
    (qbCallable name = true →
      proxyGet db qbCallable name =
        .ok (.bound { transacting := db.globalTrx } name))
  ∧ (qbCallable name = false →
      proxyGet db qbCallable name =
        .error { errorType := "Error",
                 message := "Database." ++ name ++ " is not a function" }) := by
  constructor <;> intro h <;> simp [proxyGet, hmem, hins, h]

/-- Concrete instantiation of `proxy_passthrough_dispatch`: on a façade
with no ambient transaction, accessing `where` (a builder method, not a
façade member) yields the bound builder method. -/
theorem proxy_passthrough_dispatch_witness :
    proxyGet { globalTrx := none, collectionName := none }
      (fun s => s == "where") "where" =
      .ok (.bound { transacting := none } "where") :=
  (proxy_passthrough_dispatch
    { globalTrx := none, collectionName := none }
    (fun s => s == "where") "where" (by decide) (by decide)).1 (by decide)

/-- C1 counterexample: the name `inspect` matches no existing façade
attribute or method, yet the trap returns `target.inspect` (i.e.
`undefined`) directly instead of creating a query builder and failing
with an error naming the member, as the claim requires for every
non-matching name (line 20 of the source special-cases it). -/
theorem proxy_inspect_bypasses_passthrough :
    facadeHas { globalTrx := none, collectionName := none } "inspect" = false
  ∧ proxyGet { globalTrx := none, collectionName := none }
      (fun _ => false) "inspect" = .ok (.facadeMember "inspect") := by
  constructor
  · decide
  · rfl

/-- C2: once `beginGlobalTransaction()` has succeeded (storing token `t`),
every query builder produced by a pass-through access on that façade
carries `t`; after a successful `commitGlobalTransaction()` or
`rollbackGlobalTransaction()` the ambient reference is cleared to `null`
and pass-through builders carry no transaction. -/
theorem global_trx_visibility (db db1 : DbState) (t : Trx)
    (qbCallable : String → Bool) (name : String)
    (hbegin : beginGlobalTransaction (.success t) db = some db1)
    (hmem : facadeHas db1 name = false) (hins : name ≠ "inspect")
    (hcall : qbCallable name = true) :
    db1.globalTrx = some t
  ∧ proxyGet db1 qbCallable name =
      .ok (.bound { transacting := some t } name)
  ∧ (∀ ev db2, commitGlobalTransaction db1 = .ok (ev, db2) →
      db2.globalTrx = none ∧
      proxyGet db2 qbCallable name = .ok (.bound { transacting := none } name))
  ∧ (∀ ev db2, rollbackGlobalTransaction db1 = .ok (ev, db2) →
      db2.globalTrx = none ∧
      proxyGet db2 qbCallable name = .ok (.bound { transacting := none } name)) := by
  simp only [beginGlobalTransaction, beginTransaction, Option.some.injEq] at hbegin
  subst hbegin
  have hmem2 : facadeHas { db with globalTrx := none } name = false := hmem
  refine ⟨rfl, ?_, ?_, ?_⟩
  · simp [proxyGet, hmem, hins, hcall]
  · intro ev db2 hc
    simp only [commitGlobalTransaction, Except.ok.injEq, Prod.mk.injEq] at hc
    obtain ⟨-, rfl⟩ := hc
    exact ⟨rfl, by simp [proxyGet, hmem2, hins, hcall]⟩
  · intro ev db2 hc
    simp only [rollbackGlobalTransaction, Except.ok.injEq, Prod.mk.injEq] at hc
    obtain ⟨-, rfl⟩ := hc
    exact ⟨rfl, by simp [proxyGet, hmem2, hins, hcall]⟩

/-- Concrete instantiation of `global_trx_visibility`: after a global
transaction with token 5 begins, the pass-through access `where` yields a
builder carrying token 5. -/
theorem global_trx_visibility_witness :
    proxyGet { globalTrx := some (.tok 5), collectionName := none }
      (fun s => s == "where") "where" =
      .ok (.bound { transacting := some (.tok 5) } "where") :=
  (global_trx_visibility { globalTrx := none, collectionName := none }
    { globalTrx := some (.tok 5), collectionName := none } (.tok 5)
    (fun s => s == "where") "where" rfl (by decide) (by decide) (by decide)).2.1

/-- C5 counterexample: when the driver rejects the negotiation,
`beginTransaction` does not resolve with an `undefined` token — the
returned promise is forever pending, so the claim's description of a
failed negotiation "resolving as if successful with an undefined token"
is false at this input. -/
theorem beginTransaction_failure_not_resolved :
    (beginTransaction (.failure "driver rejected") ==
      PromiseOutcome.resolved Trx.undefinedTok) = false
  ∧ beginTransaction (.failure "driver rejected") = .pending := by
  constructor
  · rfl
  · rfl

/-- Reading back the property just written by `jsSetProp` yields the
written value. -/
theorem jsGetProp_jsSetProp (obj : JsObj) (key val : String) :
    jsGetProp (jsSetProp obj key val) key = some val := by
  induction obj with
  | nil => simp [jsGetProp, jsSetProp]
  | cons p rest ih =>
    by_cases h : p.1 = key
    · simp [jsGetProp, jsSetProp, h]
    · have hb : ¬((p.1 == key) = true) := by simp [h]
      simp only [jsSetProp]
      rw [if_neg hb]
      simp only [jsGetProp]
      rw [List.find?_cons_of_neg (jsSetProp rest key val) hb]
      exact ih

/-- C8: `SchemaBuilder.index` fails with `InvalidArgumentException` when
the name is empty or the keys are missing or empty, in which case no
directive is registered (the throw happens before the push, so the
builder is unchanged and `build()` never sees the invalid directive);
otherwise it registers exactly one create-index directive, appended to
the existing ones, whose options carry the given name under `name`. -/
theorem index_validation (sb : SchemaBuilder) (name : String)
    (keys : Option (List (String × Int))) (options : Option JsObj) :
    (name = "" →
      sb.index name keys options =
        .error { errorType := "InvalidArgumentException",
                 message := "param name is required to create index" })
  ∧ (name ≠ "" → keys = none →
      sb.index name keys options =
        .error { errorType := "InvalidArgumentException",
                 message := "param keys is required to create index" })
  ∧ (∀ ks, name ≠ "" → keys = some ks → ks.length = 0 →
      sb.index name keys options =
        .error { errorType := "InvalidArgumentException",
                 message := "param keys is required to create index" })
  ∧ (∀ ks, name ≠ "" → keys = some ks → ks.length ≠ 0 →
      sb.index name keys options =
        .ok { sb with
              createIndexes := sb.createIndexes ++
                [{ keys := ks,
                   options := jsSetProp (options.getD []) "name" name }] }
      ∧ jsGetProp (jsSetProp (options.getD []) "name" name) "name" = some name) := by
  refine ⟨?_, ?_, ?_, ?_⟩
  · intro h
    simp [SchemaBuilder.index, h]
  · intro h hk
    simp [SchemaBuilder.index, h, hk]
  · intro ks h hk hlen
    simp [SchemaBuilder.index, h, hk, hlen]
  · intro ks h hk hlen
    exact ⟨by simp [SchemaBuilder.index, h, hk, hlen],
           jsGetProp_jsSetProp (options.getD []) "name" name⟩

/-- Concrete instantiation of `index_validation`: registering index
`by_email` on key `email` succeeds and stores options `{name: by_email}`. -/
theorem index_validation_witness :
    SchemaBuilder.index { createIndexes := [], dropIndexes := [] }
      "by_email" (some [("email", 1)]) none =
      .ok { createIndexes :=
              [{ keys := [("email", 1)], options := [("name", "by_email")] }],
            dropIndexes := [] } :=
  ((index_validation { createIndexes := [], dropIndexes := [] }
    "by_email" (some [("email", 1)]) none).2.2.2
    [("email", 1)] (by decide) rfl (by decide)).1

/-- C7: evaluation of `build()` at a builder holding one create directive
and one drop registration named `by_email`.  The create call carries its
keys and options, but the drop call is issued as
`dropIndex(undefined, undefined)` — the registered name `by_email` is
not passed, because the source reads `.keys`/`.options` off the
registered name string. -/
theorem build_drop_call_loses_name :
    SchemaBuilder.build
      { createIndexes :=
          [{ keys := [("email", 1)], options := [("name", "by_email")] }],
        dropIndexes := ["by_email"] }
      = [.createIndex [("email", 1)] [("name", "by_email")],
         .dropIndex none none] := by
  rfl

/-- C9: neither "if-exists" variant ever short-circuits, for any
enumerated collection infos and any name: the membership test compares
info objects against the name string under SameValueZero, which is
always false, so `createCollectionIfNotExists` always creates (even when
a collection of that name exists) and `dropCollectionIfExists` never
drops (even when one exists). -/
theorem ifExists_variants_never_short_circuit (existing : List CollInfo)
    (collectionName : String) :
    createCollectionIfNotExists existing collectionName =
      [.createCollection collectionName]
  ∧ dropCollectionIfExists existing collectionName = [] := by
  have h : jsIncludes (existing.map JsVal.obj) (JsVal.str collectionName) = false := by
    simp [jsIncludes, List.any_map, sameValueZero, Function.comp]
  exact ⟨by simp [createCollectionIfNotExists, h],
         by simp [dropCollectionIfExists, h]⟩

/-- C10: `schema.hasCollection` returns true for every collections
enumeration and every name, including names with no matching collection:
the lookup's not-found sentinel is `undefined`, and
`undefined !== null` holds under strict inequality, as does
`infoObject !== null` in the found case. -/
theorem hasCollection_always_true (arr : List CollInfo)
    (collectionName : String) :
    hasCollection arr collectionName = true := by
  cases h : arr.find? (fun c => c.name == collectionName) with
  | none => simp [hasCollection, strictNeNull, lodashFind, h]
  | some c => simp [hasCollection, strictNeNull, lodashFind, h]

/-- C4: when the driver answers the pipeline without error, `aggregate`
resolves with the full grouped array when `groupBy` is given (a
non-empty string — the source tests JS truthiness, under which an absent
or empty `groupBy` counts as not given); otherwise with the reducer
field of the first group when the result set is non-empty, and with
`null` when it is empty. -/
theorem aggregate_result_shape (groupBy : Option String) (aggregator : String)
    (result : List GroupRow) :
    (strTruthy groupBy = true →
      aggregateOutcome none groupBy aggregator result = .ok (.grouped result))
  ∧ (strTruthy groupBy = false → ∀ g gs, result = g :: gs →
      aggregateOutcome none groupBy aggregator result =
        .ok (.scalar (jsGetInt g aggregator)))
  ∧ (strTruthy groupBy = false → result = [] →
      aggregateOutcome none groupBy aggregator result = .ok .nullv) := by
  refine ⟨?_, ?_, ?_⟩
  · intro h
    simp [aggregateOutcome, resolveAggregate, h]
  · intro h g gs hres
    subst hres
    simp [aggregateOutcome, resolveAggregate, h]
  · intro h hres
    subst hres
    simp [aggregateOutcome, resolveAggregate, h]

/-- Concrete instantiation of `aggregate_result_shape`: a grouped sum
query returns the whole grouped array. -/
theorem aggregate_result_shape_witness :
    aggregateOutcome none (some "userId") "sum" [[("_id", 1), ("sum", 8)]] =
      .ok (.grouped [[("_id", 1), ("sum", 8)]]) :=
  (aggregate_result_shape (some "userId") "sum"
    [[("_id", 1), ("sum", 8)]]).1 (by decide)

/-- C3 counterexample: at `page = 0`, `limit = 1` over three documents,
the fetched rows are those after skipping `(page || 1) * limit = 1`
document, not after skipping `page * limit = 0` documents as the claim
states. -/
theorem paginate_page_zero_counterexample :
    (paginate [10, 20, 30] [] 0 1).data = [20]
  ∧ ((paginate [10, 20, 30] [] 0 1).data ==
      List.take 1 (List.drop (0 * 1) [10, 20, 30])) = false := by
  constructor
  · rfl
  · rfl

/-- C3 (amended): `paginate(page, limit)` computes the document count via
`aggregate('count')`, fetches at most `limit` documents skipping exactly
`(page || 1) * limit` documents — `page * limit` when `page` is nonzero,
`limit` when `page` is `0` or absent — and returns an envelope carrying
the fetched rows as `data` together with metadata derived from the
count, page and limit. -/
theorem paginate_envelope (docs : List Nat) (countGroups : List GroupRow)
    (page limit : Nat) :
    (paginate docs countGroups page limit).data =
      List.take limit (List.drop ((if page = 0 then 1 else page) * limit) docs)
  ∧ (paginate docs countGroups page limit).data.length ≤ limit
  ∧ (paginate docs countGroups page limit).meta =
      makePaginateMeta (resolveAggregate none "count" countGroups) page limit := by
  refine ⟨rfl, ?_, rfl⟩
  show (mqueryFind docs limit _).length ≤ limit
  rw [mqueryFind, List.length_take]
  exact min_le_left _ _

/-- C6: starting from a fresh instance, `n ≥ 1` sequential `connect()`
calls issue exactly one establishment to the driver (and no destruction),
leave the first established connection in place, and return that same
connection from every call; `close()` on a connected instance is what
issues the destruction call. -/
theorem connect_idempotent (supply : Nat → Nat) (n : Nat) (h : 1 ≤ n) :
    (connectRun supply n).state.connection = some (supply 0)
  ∧ (connectRun supply n).events = [.establish (supply 0)]
  ∧ (connectRun supply n).returned = List.replicate n (supply 0)
  ∧ (∀ c, close { connection := some c } = .ok [.destroy c]) := by
  induction n with
  | zero => exact absurd h (by omega)
  | succ m ih =>
    rcases Nat.eq_zero_or_pos m with hm | hm
    · subst hm
      exact ⟨rfl, rfl, rfl, fun c => rfl⟩
    · obtain ⟨h1, h2, h3, -⟩ := ih hm
      have hstep : connect (supply m) (connectRun supply m).state =
          (supply 0, (connectRun supply m).state, []) := by
        simp [connect, h1]
      refine ⟨?_, ?_, ?_, fun c => rfl⟩
      · simp only [connectRun, hstep]
        exact h1
      · simp only [connectRun, hstep]
        rw [h2]
        simp
      · simp only [connectRun, hstep]
        rw [h3]
        exact (List.replicate_succ' m (supply 0)).symm

/-- Concrete instantiation of `connect_idempotent`: three sequential
`connect()` calls against a driver handing out connection 7 first issue
exactly one establishment. -/
theorem connect_idempotent_witness :
    (connectRun (fun k => k + 7) 3).events = [.establish 7] :=
  (connect_idempotent (fun k => k + 7) 3 (by decide)).2.1

/-- C5 (amended): when the driver rejects the transaction negotiation,
`beginTransaction` does not propagate the failure to its caller — the
rejection is swallowed by the empty catch handler at the point of
creation — and the promise handed to the caller never settles (it stays
pending rather than resolving or rejecting). -/
theorem beginTransaction_failure_swallowed (msg : String) :
    beginTransaction (.failure msg) = .pending := by
  rfl

end LucidMongo
